import Mathlib

/-!
Shallow embedding of the sale-item orchestration core (`workflows.py`)
of the sale-items proof-of-concept repository.

The durable-execution substrate (replay, task dispatch, timers) is external
to the orchestration logic; handlers of one workflow instance never run in
true parallel, so each handler is embedded as a function from the workflow
state (the mutable fields of `SaleItemWorkflow`) to a pair of the state
after the call and an `Except` result.  A dispatched activity's outcome
(success, or timeout/remote fault) is an external event and appears as an
explicit `Bool` parameter.  Python `ApplicationError`s raised at distinct
sites are distinguished by constructors of `WFError`.
-/

/-- The sale item aggregate (`models.SaleItem`, as constructed and used in
`workflows.py`): identity, current lifecycle status, and quantity. -/
structure SaleItem where
  sale_item_id : String
  current_status : String
  quantity : Int
deriving Repr, DecidableEq

/-- Input of `update_status` (`SaleItemStatusUpdateInput`). -/
structure SaleItemStatusUpdateInput where
  status : String
deriving Repr, DecidableEq

/-- Input of `split_sale_item` (`SaleItemSplitInput`). -/
structure SaleItemSplitInput where
  quantity : Int
deriving Repr, DecidableEq

/-- Input of the `mark_fulfilled` signal (`MarkFulfilledInput`). -/
structure MarkFulfilledInput where
  name : String
deriving Repr, DecidableEq

/-- Start input of the workflow (`SaleItemWorkflowInput`): id, quantity and
an optional initial status (`None` in Python is `none`). -/
structure SaleItemWorkflowInput where
  sale_item_id : String
  quantity : Int
  status : Option String := none
deriving Repr, DecidableEq

/-- The errors the handlers raise (each constructor corresponds to one
`raise ApplicationError(...)` site in `workflows.py`, or to the failure of
an awaited activity):
* `notInit` — "Sale item not initialized" (lines 117, 213, 239);
* `invalidTransition` — "Invalid status transition from … to …"
  (line 205, wrapping the `ValueError` of `StateMachine.transition`);
* `invalidStatus` — "Invalid status: …" (line 169, the `case _` branch);
* `insufficientQuantity` — "Not enough quantity to split sale item"
  (line 216);
* `actionFailed` — the awaited activity failed (timeout or remote fault),
  surfacing as a failure of `workflow.execute_activity`. -/
inductive WFError where
  | notInit
  | invalidTransition (current target : String)
  | invalidStatus (target : String)
  | insufficientQuantity
  | actionFailed
deriving Repr, DecidableEq

/-- Python dict lookup with default: `d.get(key, default)` on a string-keyed
dict embedded as an association list. -/
def dict_get (d : List (String × List String)) (key : String)
    (default : List String) : List String :=
  match d with
  | [] => default
  | (k, v) :: rest => if k == key then v else dict_get rest key default

/-- The transition table (`transitions`, workflows.py lines 37–42). -/
def transitions : List (String × List String) :=
  [("open", ["ready"]),
   ("ready", ["open", "billed_pending"]),
   ("billed_pending", ["billed_approved"]),
   ("billed_approved", ["billed_pending"])]

/-- The generic `StateMachine` class (workflows.py lines 22–34). -/
structure StateMachine where
  state : String
  transitions : List (String × List String)

/-- `StateMachine.can_transition`: `new_state in self.transitions.get(self.state, [])`. -/
def StateMachine.can_transition (sm : StateMachine) (new_state : String) : Bool :=
  (dict_get sm.transitions sm.state []).contains new_state

/-- `StateMachine.transition`: moves to `new_state` or raises `ValueError`
(embedded as `Except.error` with the message). -/
def StateMachine.transition (sm : StateMachine) (new_state : String) :
    Except String StateMachine :=
  if sm.can_transition new_state then
    .ok { sm with state := new_state }
  else
    .error ("Invalid transition from " ++ sm.state ++ " to " ++ new_state)

/-- `SaleItemWorkflow._check_status_transition` (lines 200–207): builds a
`StateMachine` over the static table and converts its `ValueError` into the
`ApplicationError` "Invalid status transition from … to …". -/
def check_status_transition (current_status new_status : String) :
    Except WFError Unit :=
  let state_machine : StateMachine :=
    { state := current_status, transitions := transitions }
  match state_machine.transition new_status with
  | .ok _ => .ok ()
  | .error _ => .error (.invalidTransition current_status new_status)

/-- The mutable fields of a `SaleItemWorkflow` instance (`__init__`, plus
`approver_name` which `mark_fulfilled` creates; the `asyncio.Lock` has no
observable state in the sequential embedding). -/
structure WFState where
  should_update : Bool
  sale_item_fulfilled : Bool
  sale_item : Option SaleItem
  approver_name : Option String
deriving Repr, DecidableEq

/-- Python string coercion in `input.status or "open"`: an absent (`None`)
or empty (falsy) string falls back to the default. -/
def pyStrOr (s : Option String) (d : String) : String :=
  match s with
  | none => d
  | some v => if v = "" then d else v

/-- The `SaleItem` constructed at the start of `run` (lines 82–86). -/
def initEntity (input : SaleItemWorkflowInput) : SaleItem :=
  { sale_item_id := input.sale_item_id
    current_status := pyStrOr input.status "open"
    quantity := input.quantity }

/-- The workflow state right after `run`'s initialization (lines 70–90):
fresh flags from `__init__`, `should_update = False`, entity constructed
from the start input. -/
def initState (input : SaleItemWorkflowInput) : WFState :=
  { should_update := false
    sale_item_fulfilled := false
    sale_item := some (initEntity input)
    approver_name := none }

/-- The `match new_status` block of `update_status` (lines 126–169): each
known target dispatches exactly one activity (its success is the `actionOk`
parameter; the activities in `activities.py` only sleep, so a successful
dispatch leaves the workflow state unchanged), the `billed_approved` arm
additionally sets the fulfilled flag after its activity succeeds (line 166),
and any other target raises "Invalid status: …" (line 169). -/
def dispatch_for_status (st : WFState) (new_status : String) (actionOk : Bool) :
    Except WFError WFState :=
  match new_status with
  | "open" => if actionOk then .ok st else .error .actionFailed
  | "ready" => if actionOk then .ok st else .error .actionFailed
  | "billed_pending" => if actionOk then .ok st else .error .actionFailed
  | "billed_approved" =>
      if actionOk then .ok { st with sale_item_fulfilled := true }
      else .error .actionFailed
  | _ => .error (.invalidStatus new_status)

/-- `SaleItemWorkflow.update_status` (lines 114–198).  Returns the workflow
state after the call (unchanged when an error is raised, since every raise
site precedes the first mutation) and the handler's result.  On success the
status field is assigned only after the dispatched activity completes
(line 194), and the updated entity is returned. -/
def update_status (st : WFState) (input : SaleItemStatusUpdateInput)
    (actionOk : Bool) : WFState × Except WFError SaleItem :=
  match st.sale_item with
  | none => (st, .error .notInit)
  | some item =>
    match check_status_transition item.current_status input.status with
    | .error e => (st, .error e)
    | .ok _ =>
      match dispatch_for_status st input.status actionOk with
      | .error e => (st, .error e)
      | .ok st1 =>
        let item2 := { item with current_status := input.status }
        ({ st1 with sale_item := some item2 }, .ok item2)

/-- `SaleItemWorkflow.split_sale_item` (lines 209–234).  Returns the state
after the call and, on success, the start input of the spawned child
orchestration (`SaleItemWorkflowInput(sale_item_id=…, quantity=…)`, so the
child's optional status is absent).  The awaited child result is external
and not part of the state change.  The `quantity is None` guard has no
counterpart because quantity is embedded as `Int`. -/
def split_sale_item (st : WFState) (input : SaleItemSplitInput) :
    WFState × Except WFError SaleItemWorkflowInput :=
  let quantity := input.quantity
  match st.sale_item with
  | none => (st, .error .notInit)
  | some item =>
    if item.quantity < quantity then
      (st, .error .insufficientQuantity)
    else
      let new_sale_item : SaleItem :=
        { sale_item_id := "89101112", current_status := "open"
          quantity := quantity }
      let item2 := { item with quantity := item.quantity - quantity }
      ({ st with sale_item := some item2 },
       .ok { sale_item_id := new_sale_item.sale_item_id
             quantity := new_sale_item.quantity
             status := none })

/-- The `mark_fulfilled` signal handler (lines 108–112). -/
def mark_fulfilled (st : WFState) (input : MarkFulfilledInput) : WFState :=
  { st with sale_item_fulfilled := true, approver_name := some input.name }

/-- The `update_workflow` update handler (lines 246–248). -/
def update_workflow (st : WFState) : WFState :=
  { st with should_update := true }

/-- The `get_sale_item` query (lines 236–240). -/
def get_sale_item (st : WFState) : Except WFError SaleItem :=
  match st.sale_item with
  | none => .error .notInit
  | some item => .ok item

/-- The `get_transitions` query (lines 242–244). -/
def get_transitions : List (String × List String) :=
  transitions

/-- The predicate of `workflow.wait_condition` in `run` (lines 91–94):
`(should_update or sale_item_fulfilled) and all_handlers_finished`. -/
def wait_condition (st : WFState) (all_handlers_finished : Bool) : Bool :=
  (st.should_update || st.sale_item_fulfilled) && all_handlers_finished

/-- The start input `run` passes to `continue_as_new` (lines 99–105): the
current entity's id, quantity and status. -/
def snapshot_input (item : SaleItem) : SaleItemWorkflowInput :=
  { sale_item_id := item.sale_item_id
    quantity := item.quantity
    status := some item.current_status }

/-- What `run` does once its wait condition fires. -/
inductive RunOutcome where
  | continueAsNew (input : SaleItemWorkflowInput)
  | terminate
deriving Repr, DecidableEq

/-- The tail of `run` after the wait (lines 95–106): if `should_update` is
set, continue-as-new with the current entity snapshot; otherwise return the
terminal result `{}`.  `item` is the workflow's entity, which `run` always
initializes before waiting. -/
def run_decision (st : WFState) (item : SaleItem) : RunOutcome :=
  if st.should_update then .continueAsNew (snapshot_input item)
  else .terminate

/-! ### Helper lemmas about the transition table and the handlers -/

theorem list_contains_iff (l : List String) (s : String) :
    l.contains s = true ↔ s ∈ l := by
  simp

theorem dict_get_transitions_cases (cur s : String)
    (h : s ∈ dict_get transitions cur []) :
    s = "ready" ∨ s = "open" ∨ s = "billed_pending" ∨ s = "billed_approved" := by
  simp only [transitions, dict_get] at h
  split_ifs at h <;> simp at h <;> tauto

theorem status_ne_empty_of_mem {cur s : String}
    (h : s ∈ dict_get transitions cur []) : s ≠ "" := by
  rcases dict_get_transitions_cases cur s h with h | h | h | h <;> subst h <;> decide

theorem check_ok_of_mem {cur ns : String}
    (h : ns ∈ dict_get transitions cur []) :
    check_status_transition cur ns = .ok () := by
  simp [check_status_transition, StateMachine.transition, StateMachine.can_transition,
    list_contains_iff, h]

theorem check_err_of_not_mem {cur ns : String}
    (h : ns ∉ dict_get transitions cur []) :
    check_status_transition cur ns = .error (.invalidTransition cur ns) := by
  simp [check_status_transition, StateMachine.transition, StateMachine.can_transition,
    list_contains_iff, h]

theorem mem_of_check_ok {cur ns : String} {u : Unit}
    (h : check_status_transition cur ns = .ok u) :
    ns ∈ dict_get transitions cur [] := by
  by_contra hn
  rw [check_err_of_not_mem hn] at h
  exact Except.noConfusion h

theorem pyStrOr_ne_empty (s : Option String) (d : String) (hd : d ≠ "") :
    pyStrOr s d ≠ "" := by
  cases s with
  | none => exact hd
  | some v =>
    simp only [pyStrOr]
    split_ifs with hv
    · exact hd
    · exact hv

/-- The entity after a call to `update_status` is either untouched (every
raise site precedes the first mutation) or has its status set to the
requested target, which the guard proved to be in the transition table
entry for the previous status. -/
theorem update_status_sale_item_cases (st : WFState)
    (input : SaleItemStatusUpdateInput) (actionOk : Bool) :
    (update_status st input actionOk).1.sale_item = st.sale_item ∨
    (∃ item, st.sale_item = some item ∧
      input.status ∈ dict_get transitions item.current_status [] ∧
      (update_status st input actionOk).1.sale_item =
        some { item with current_status := input.status }) := by
  unfold update_status
  split
  · left; rfl
  · rename_i item hsi
    split
    · left; rfl
    · rename_i u hchk
      split
      · left; rfl
      · rename_i st1 hd
        right
        exact ⟨item, hsi, mem_of_check_ok hchk, rfl⟩

/-- The entity after a call to `split_sale_item` is either untouched or has
its quantity decremented by a requested amount that the sufficiency check
proved to be at most the previous quantity. -/
theorem split_sale_item_sale_item_cases (st : WFState)
    (input : SaleItemSplitInput) :
    (split_sale_item st input).1.sale_item = st.sale_item ∨
    (∃ item, st.sale_item = some item ∧ input.quantity ≤ item.quantity ∧
      (split_sale_item st input).1.sale_item =
        some { item with quantity := item.quantity - input.quantity }) := by
  rcases hsi : st.sale_item with _ | item
  · left
    simp [split_sale_item, hsi]
  · by_cases hq : item.quantity < input.quantity
    · left
      simp [split_sale_item, hsi, hq]
    · right
      exact ⟨item, rfl, by omega, by simp [split_sale_item, hsi, hq]⟩

/-! ### Reachable states of one orchestrator instance

A state is reachable when it arises from `run`'s initialization on some
start input followed by any sequence of handler invocations (`update_status`
with any requested status and any activity outcome, `split_sale_item` with
any requested quantity, the `mark_fulfilled` signal, the `update_workflow`
update), or from the continue-as-new restart that `run` performs when the
restart flag is set.  Handlers that raise leave the state as the `.1`
component already records, so failed invocations are covered by the same
constructors. -/
inductive Reachable : WFState → Prop where
  | init (input : SaleItemWorkflowInput) : Reachable (initState input)
  | step_update {st : WFState} (input : SaleItemStatusUpdateInput) (actionOk : Bool) :
      Reachable st → Reachable (update_status st input actionOk).1
  | step_split {st : WFState} (input : SaleItemSplitInput) :
      Reachable st → Reachable (split_sale_item st input).1
  | step_signal {st : WFState} (input : MarkFulfilledInput) :
      Reachable st → Reachable (mark_fulfilled st input)
  | step_request {st : WFState} :
      Reachable st → Reachable (update_workflow st)
  | restart {st : WFState} {item : SaleItem} :
      Reachable st → st.sale_item = some item → st.should_update = true →
      Reachable (initState (snapshot_input item))

/-- In every reachable state the entity's status is a nonempty string: the
initializer replaces a falsy start status by "open", and updates only ever
assign statuses drawn from the transition table. -/
theorem reachable_status_ne_empty {st : WFState} (hr : Reachable st) :
    ∀ item : SaleItem, st.sale_item = some item → item.current_status ≠ "" := by
  induction hr with
  | init input =>
    intro item h
    rw [initState] at h
    simp only [Option.some.injEq] at h
    subst h
    exact pyStrOr_ne_empty input.status "open" (by decide)
  | step_update input actionOk hr ih =>
    intro item h
    rcases update_status_sale_item_cases _ input actionOk with hc | ⟨item0, hsi, hmem, hc⟩
    · exact ih item (hc ▸ h)
    · rw [hc] at h
      simp only [Option.some.injEq] at h
      subst h
      exact status_ne_empty_of_mem hmem
  | step_split input hr ih =>
    intro item h
    rcases split_sale_item_sale_item_cases _ input with hc | ⟨item0, hsi, hle, hc⟩
    · exact ih item (hc ▸ h)
    · rw [hc] at h
      simp only [Option.some.injEq] at h
      subst h
      exact ih item0 hsi
  | step_signal input hr ih =>
    intro item h
    exact ih item h
  | step_request hr ih =>
    intro item h
    exact ih item h
  | restart hr hsi hsu ih =>
    intro item h
    rw [initState] at h
    simp only [Option.some.injEq] at h
    subst h
    simp only [initEntity]
    exact pyStrOr_ne_empty _ "open" (by decide)

/-- Reachability restricted to non-negative quantities at the boundary: the
start input's quantity is non-negative and every split request's quantity is
non-negative.  (The code itself does not validate either, so the constraint
lives in the relation, not in the handlers.) -/
inductive NNReachable : WFState → Prop where
  | init (input : SaleItemWorkflowInput) :
      0 ≤ input.quantity → NNReachable (initState input)
  | step_update {st : WFState} (input : SaleItemStatusUpdateInput) (actionOk : Bool) :
      NNReachable st → NNReachable (update_status st input actionOk).1
  | step_split {st : WFState} (input : SaleItemSplitInput) :
      0 ≤ input.quantity → NNReachable st → NNReachable (split_sale_item st input).1
  | step_signal {st : WFState} (input : MarkFulfilledInput) :
      NNReachable st → NNReachable (mark_fulfilled st input)
  | step_request {st : WFState} :
      NNReachable st → NNReachable (update_workflow st)
  | restart {st : WFState} {item : SaleItem} :
      NNReachable st → st.sale_item = some item → st.should_update = true →
      NNReachable (initState (snapshot_input item))

/-- Under non-negative start and split inputs, the entity's quantity is
non-negative in every reachable state: status updates never touch it, and a
successful split decrements it by a requested amount the sufficiency check
bounded by the current quantity. -/
theorem nn_reachable_quantity_nonneg {st : WFState} (hr : NNReachable st) :
    ∀ item : SaleItem, st.sale_item = some item → 0 ≤ item.quantity := by
  induction hr with
  | init input hq =>
    intro item h
    rw [initState] at h
    simp only [Option.some.injEq] at h
    subst h
    exact hq
  | step_update input actionOk hr ih =>
    intro item h
    rcases update_status_sale_item_cases _ input actionOk with hc | ⟨item0, hsi, hmem, hc⟩
    · exact ih item (hc ▸ h)
    · rw [hc] at h
      simp only [Option.some.injEq] at h
      subst h
      exact ih item0 hsi
  | step_split input hq hr ih =>
    intro item h
    rcases split_sale_item_sale_item_cases _ input with hc | ⟨item0, hsi, hle, hc⟩
    · exact ih item (hc ▸ h)
    · rw [hc] at h
      simp only [Option.some.injEq] at h
      subst h
      show 0 ≤ item0.quantity - input.quantity
      omega
  | step_signal input hr ih =>
    intro item h
    exact ih item h
  | step_request hr ih =>
    intro item h
    exact ih item h
  | restart hr hsi hsu ih =>
    intro item h
    rw [initState] at h
    simp only [Option.some.injEq] at h
    subst h
    simp only [initEntity, snapshot_input]
    exact ih _ hsi

/-! ### The claims -/

/-- Claim C1: for every pair (current, target) such that target is not in
the transition table entry for current, a call to `update_status` with that
target fails with the InvalidTransition error (carrying both states) and
the workflow state — in particular the entity's status — is exactly the
same after the call as before it. -/
theorem claim1_invalid_transition_rejected (st : WFState) (item : SaleItem)
    (target : String) (actionOk : Bool)
    (hinit : st.sale_item = some item)
    (h : target ∉ dict_get transitions item.current_status []) :
    update_status st ⟨target⟩ actionOk
      = (st, .error (.invalidTransition item.current_status target)) := by
  simp [update_status, hinit, check_err_of_not_mem h]

/-- Witness for C1: updating a freshly started open item to "bogus" fails
with InvalidTransition and leaves the state untouched. -/
theorem claim1_witness :
    update_status (initState ⟨"1234567", 10, none⟩) ⟨"bogus"⟩ true
      = (initState ⟨"1234567", 10, none⟩,
         .error (.invalidTransition "open" "bogus")) :=
  claim1_invalid_transition_rejected (initState ⟨"1234567", 10, none⟩)
    (initEntity ⟨"1234567", 10, none⟩) "bogus" true rfl (by decide)

/-- Claim C2: for every pair (current, target) in the transition table, a
call to `update_status` whose dispatched action succeeds completes
successfully, sets the entity's status to target, returns the updated
entity snapshot, and a subsequent `get_sale_item` query reports status
equal to target. -/
theorem claim2_valid_update_sets_status (st : WFState) (item : SaleItem)
    (target : String)
    (hinit : st.sale_item = some item)
    (hmem : target ∈ dict_get transitions item.current_status []) :
    (update_status st ⟨target⟩ true).2 = .ok { item with current_status := target } ∧
    (update_status st ⟨target⟩ true).1.sale_item
      = some { item with current_status := target } ∧
    get_sale_item (update_status st ⟨target⟩ true).1
      = .ok { item with current_status := target } := by
  have hchk := check_ok_of_mem hmem
  rcases dict_get_transitions_cases _ _ hmem with h | h | h | h <;> subst h <;>
    simp [update_status, hinit, hchk, dispatch_for_status, get_sale_item]

/-- Witness for C2: updating a freshly started open item to "ready"
returns the item with status "ready". -/
theorem claim2_witness :
    (update_status (initState ⟨"1234567", 10, none⟩) ⟨"ready"⟩ true).2
      = .ok { sale_item_id := "1234567", current_status := "ready", quantity := 10 } :=
  (claim2_valid_update_sets_status (initState ⟨"1234567", 10, none⟩)
    (initEntity ⟨"1234567", 10, none⟩) "ready" rfl (by decide)).1

/-- Claim C3: for an initialized entity and a requested split quantity q,
if q exceeds the current quantity then `split_sale_item` fails with
InsufficientQuantity and leaves the state (hence the parent's quantity)
unchanged; if q is at most the current quantity then the parent's quantity
decreases by exactly q and the spawned child orchestration's start input
initializes an entity with quantity q and status "open". -/
theorem claim3_split_behavior (st : WFState) (item : SaleItem) (q : Int)
    (hinit : st.sale_item = some item) :
    (item.quantity < q →
      split_sale_item st ⟨q⟩ = (st, .error .insufficientQuantity)) ∧
    (q ≤ item.quantity →
      (split_sale_item st ⟨q⟩).1.sale_item
          = some { item with quantity := item.quantity - q } ∧
      (split_sale_item st ⟨q⟩).2
          = .ok { sale_item_id := "89101112", quantity := q, status := none } ∧
      initEntity { sale_item_id := "89101112", quantity := q, status := none }
          = { sale_item_id := "89101112", current_status := "open", quantity := q }) := by
  constructor
  · intro hlt
    simp [split_sale_item, hinit, hlt]
  · intro hle
    have hq : ¬ item.quantity < q := by omega
    refine ⟨?_, ?_, ?_⟩ <;> simp [split_sale_item, hinit, hq, initEntity, pyStrOr]

/-- Witness for C3: splitting 20 out of 10 fails and changes nothing;
splitting 4 out of 10 spawns a child whose start input has quantity 4. -/
theorem claim3_witness :
    split_sale_item (initState ⟨"1234567", 10, none⟩) ⟨20⟩
      = (initState ⟨"1234567", 10, none⟩, .error .insufficientQuantity) ∧
    (split_sale_item (initState ⟨"1234567", 10, none⟩) ⟨4⟩).2
      = .ok { sale_item_id := "89101112", quantity := 4, status := none } :=
  ⟨(claim3_split_behavior (initState ⟨"1234567", 10, none⟩)
      (initEntity ⟨"1234567", 10, none⟩) 20 rfl).1 (by decide),
   ((claim3_split_behavior (initState ⟨"1234567", 10, none⟩)
      (initEntity ⟨"1234567", 10, none⟩) 4 rfl).2 (by decide)).2.1⟩

/-- Counterexample to C4 as stated: from a start input with quantity 10, a
`split_sale_item` request for -5 passes the sufficiency check (10 < -5 is
false) and succeeds, creating a child orchestration whose initialized
entity has quantity -5 < 0.  The claim's "arbitrary integer requests" keep
quantity ≥ 0 is therefore false. -/
theorem claim4_counterexample :
    (split_sale_item (initState ⟨"1234567", 10, none⟩) ⟨-5⟩).2
      = .ok { sale_item_id := "89101112", quantity := -5, status := none } ∧
    initEntity { sale_item_id := "89101112", quantity := -5, status := none }
      = { sale_item_id := "89101112", current_status := "open", quantity := -5 } ∧
    ¬ (0 : Int) ≤ (initEntity ⟨"89101112", -5, none⟩).quantity :=
  ⟨rfl, rfl, by decide⟩

/-- Claim C4 (amended): provided the start input's quantity is non-negative
and every split request's quantity is non-negative, the parent's quantity
is ≥ 0 in every reachable state of the orchestrator, and every child
created by a successful split initializes with quantity ≥ 0 (the child's
quantity equals the request). -/
theorem claim4_quantity_nonneg_amended (st : WFState) (hr : NNReachable st) :
    (∀ item : SaleItem, st.sale_item = some item → 0 ≤ item.quantity) ∧
    (∀ (q : Int) (ci : SaleItemWorkflowInput), 0 ≤ q →
      (split_sale_item st ⟨q⟩).2 = .ok ci → 0 ≤ (initEntity ci).quantity) := by
  refine ⟨nn_reachable_quantity_nonneg hr, ?_⟩
  intro q ci hq hok
  rcases hsi : st.sale_item with _ | item
  · simp [split_sale_item, hsi] at hok
  · by_cases hlt : item.quantity < q
    · simp [split_sale_item, hsi, hlt] at hok
    · simp [split_sale_item, hsi, hlt] at hok
      subst hok
      simpa [initEntity] using hq

/-- Witness for amended C4: the freshly started entity with quantity 10 has
non-negative quantity. -/
theorem claim4_witness :
    0 ≤ (initEntity ⟨"1234567", 10, none⟩).quantity :=
  (claim4_quantity_nonneg_amended (initState ⟨"1234567", 10, none⟩)
    (NNReachable.init _ (by decide))).1 _ rfl

/-- Counterexample to C5 as stated: requesting the unknown target "closed"
on an initialized open item fails with the InvalidTransition error, not the
InvalidStatus error — the transition check at the top of `update_status`
runs before the status match, and no unknown status is in any transition
table entry, so the `case _` InvalidStatus branch is unreachable. -/
theorem claim5_counterexample :
    (update_status (initState ⟨"1234567", 10, none⟩) ⟨"closed"⟩ true).2
      = .error (.invalidTransition "open" "closed") ∧
    (update_status (initState ⟨"1234567", 10, none⟩) ⟨"closed"⟩ true).2
      ≠ .error (.invalidStatus "closed") := by
  refine ⟨rfl, ?_⟩
  intro h
  rw [show (update_status (initState ⟨"1234567", 10, none⟩) ⟨"closed"⟩ true).2
        = Except.error (WFError.invalidTransition "open" "closed") from rfl] at h
  simp only [Except.error.injEq] at h
  exact WFError.noConfusion h

/-- Claim C5 (amended): for every initialized entity and every requested
target that is not one of the four known states, `update_status` fails —
but with the InvalidTransition error raised by the transition check, which
precedes the status match; the InvalidStatus branch is dead code.  The
state is unchanged. -/
theorem claim5_unknown_status_amended (st : WFState) (item : SaleItem)
    (target : String) (actionOk : Bool)
    (hinit : st.sale_item = some item)
    (hunk : target ≠ "open" ∧ target ≠ "ready" ∧ target ≠ "billed_pending" ∧
            target ≠ "billed_approved") :
    update_status st ⟨target⟩ actionOk
      = (st, .error (.invalidTransition item.current_status target)) := by
  have hnm : target ∉ dict_get transitions item.current_status [] := by
    intro hm
    rcases dict_get_transitions_cases _ _ hm with h | h | h | h <;> tauto
  simp [update_status, hinit, check_err_of_not_mem hnm]

/-- Witness for amended C5: the unknown target "weird" fails with
InvalidTransition. -/
theorem claim5_witness :
    update_status (initState ⟨"1234567", 10, none⟩) ⟨"weird"⟩ false
      = (initState ⟨"1234567", 10, none⟩,
         .error (.invalidTransition "open" "weird")) :=
  claim5_unknown_status_amended (initState ⟨"1234567", 10, none⟩)
    (initEntity ⟨"1234567", 10, none⟩) "weird" false rfl (by decide)

/-- Claim C6: for every valid (current, target) pair, if the dispatched
action fails (timeout or remote fault), the handler invocation fails and
the workflow state — in particular the entity's status — is exactly as
before the call: the status field is only advanced after the action
succeeds. -/
theorem claim6_action_failure_leaves_state (st : WFState) (item : SaleItem)
    (target : String)
    (hinit : st.sale_item = some item)
    (hmem : target ∈ dict_get transitions item.current_status []) :
    update_status st ⟨target⟩ false = (st, .error .actionFailed) := by
  have hchk := check_ok_of_mem hmem
  rcases dict_get_transitions_cases _ _ hmem with h | h | h | h <;> subst h <;>
    simp [update_status, hinit, hchk, dispatch_for_status]

/-- Witness for C6: a failing action on the valid open→ready transition
fails the handler and leaves the state untouched. -/
theorem claim6_witness :
    update_status (initState ⟨"1234567", 10, none⟩) ⟨"ready"⟩ false
      = (initState ⟨"1234567", 10, none⟩, .error .actionFailed) :=
  claim6_action_failure_leaves_state (initState ⟨"1234567", 10, none⟩)
    (initEntity ⟨"1234567", 10, none⟩) "ready" rfl (by decide)

/-- Claim C7: whenever an `update_status` to "billed_approved" succeeds,
the fulfilled flag is set in the resulting state; if no restart was
requested, then once all handlers have finished the wait condition fires
and `run`'s decision is to terminate (return the terminal result) rather
than restart via continue-as-new. -/
theorem claim7_fulfilled_terminates (st st' : WFState) (item' : SaleItem)
    (hok : update_status st ⟨"billed_approved"⟩ true = (st', .ok item'))
    (hnr : st.should_update = false) :
    st'.sale_item_fulfilled = true ∧
    st'.should_update = false ∧
    wait_condition st' true = true ∧
    run_decision st' item' = .terminate := by
  rcases hsi : st.sale_item with _ | item
  · simp [update_status, hsi] at hok
  · rcases hchk : check_status_transition item.current_status "billed_approved" with e | u
    · simp [update_status, hsi, hchk] at hok
    · simp only [update_status, hsi, hchk, dispatch_for_status, if_true] at hok
      simp only [Prod.mk.injEq, Except.ok.injEq] at hok
      obtain ⟨h1, h2⟩ := hok
      subst h1
      refine ⟨rfl, hnr, ?_, ?_⟩
      · simp [wait_condition]
      · simp [run_decision, hnr]

/-- Witness for C7: approving a billed_pending item yields a state with the
fulfilled flag set whose run decision is to terminate. -/
theorem claim7_witness :
    ({ should_update := false, sale_item_fulfilled := true,
       sale_item := some { sale_item_id := "1234567",
                           current_status := "billed_approved", quantity := 10 },
       approver_name := none } : WFState).sale_item_fulfilled = true ∧
    ({ should_update := false, sale_item_fulfilled := true,
       sale_item := some { sale_item_id := "1234567",
                           current_status := "billed_approved", quantity := 10 },
       approver_name := none } : WFState).should_update = false ∧
    wait_condition
      { should_update := false, sale_item_fulfilled := true,
        sale_item := some { sale_item_id := "1234567",
                            current_status := "billed_approved", quantity := 10 },
        approver_name := none } true = true ∧
    run_decision
      { should_update := false, sale_item_fulfilled := true,
        sale_item := some { sale_item_id := "1234567",
                            current_status := "billed_approved", quantity := 10 },
        approver_name := none }
      { sale_item_id := "1234567", current_status := "billed_approved",
        quantity := 10 } = .terminate :=
  claim7_fulfilled_terminates (initState ⟨"1234567", 10, some "billed_pending"⟩)
    _ _ rfl rfl

/-- Claim C8: in every reachable state, the continue-as-new start input
carries exactly the current entity's id, quantity and status, and the fresh
instance's initialization reconstructs an entity equal to it:
`get_sale_item` right after the restart equals `get_sale_item` right
before. -/
theorem claim8_restart_roundtrip (st : WFState) (item : SaleItem)
    (hr : Reachable st) (hinit : st.sale_item = some item) :
    initEntity (snapshot_input item) = item ∧
    get_sale_item (initState (snapshot_input item)) = get_sale_item st := by
  have hne := reachable_status_ne_empty hr item hinit
  have he : initEntity (snapshot_input item) = item := by
    cases item with
    | mk i s q => simp_all [initEntity, snapshot_input, pyStrOr]
  refine ⟨he, ?_⟩
  simp [get_sale_item, initState, hinit, he]

/-- Witness for C8: restarting an instance started as ("1234567", 10,
"ready") reproduces the same query answer. -/
theorem claim8_witness :
    get_sale_item (initState (snapshot_input (initEntity ⟨"1234567", 10, some "ready"⟩)))
      = get_sale_item (initState ⟨"1234567", 10, some "ready"⟩) :=
  (claim8_restart_roundtrip (initState ⟨"1234567", 10, some "ready"⟩)
    (initEntity ⟨"1234567", 10, some "ready"⟩) (Reachable.init _) rfl).2

/-- Claim C9: when both the restart flag and the fulfilled flag are set
once all handlers have finished, `run` restarts via continue-as-new with
the current entity snapshot rather than terminating — the restart condition
is checked first. -/
theorem claim9_restart_precedence (st : WFState) (item : SaleItem)
    (_hinit : st.sale_item = some item)
    (hres : st.should_update = true) (_hful : st.sale_item_fulfilled = true) :
    run_decision st item = .continueAsNew (snapshot_input item) := by
  simp [run_decision, hres]

/-- Witness for C9: with both flags set, the decision is continue-as-new. -/
theorem claim9_witness :
    run_decision
      { should_update := true, sale_item_fulfilled := true,
        sale_item := some { sale_item_id := "1234567",
                            current_status := "billed_approved", quantity := 10 },
        approver_name := none }
      { sale_item_id := "1234567", current_status := "billed_approved",
        quantity := 10 }
      = .continueAsNew (snapshot_input
          { sale_item_id := "1234567", current_status := "billed_approved",
            quantity := 10 }) :=
  claim9_restart_precedence _ _ rfl rfl rfl

/-- Counterexample to C10 as stated: the child id is the hardcoded constant
"89101112", so two successive successful splits of the same parent produce
children with identical — not distinct — identifiers, and a parent whose
own id is "89101112" produces a child with the same id as the parent. -/
theorem claim10_counterexample :
    (split_sale_item (initState ⟨"1234567", 10, none⟩) ⟨2⟩).2
      = .ok { sale_item_id := "89101112", quantity := 2, status := none } ∧
    (split_sale_item (split_sale_item (initState ⟨"1234567", 10, none⟩) ⟨2⟩).1 ⟨3⟩).2
      = .ok { sale_item_id := "89101112", quantity := 3, status := none } ∧
    (split_sale_item (initState ⟨"89101112", 5, none⟩) ⟨1⟩).2
      = .ok { sale_item_id := "89101112", quantity := 1, status := none } :=
  ⟨rfl, rfl, rfl⟩

/-- Claim C10 (amended): every successful `split_sale_item` creates a child
whose identifier is the fixed constant "89101112" — the id is not freshly
generated, so successive splits reuse the same child id, and the child's id
differs from the parent's only when the parent's id is not "89101112". -/
theorem claim10_child_id_amended (st : WFState) (item : SaleItem) (q : Int)
    (hinit : st.sale_item = some item) (hle : q ≤ item.quantity) :
    (split_sale_item st ⟨q⟩).2
      = .ok { sale_item_id := "89101112", quantity := q, status := none } := by
  have hq : ¬ item.quantity < q := by omega
  simp [split_sale_item, hinit, hq]

/-- Witness for amended C10: splitting 7 out of 10 creates the child with
the constant id. -/
theorem claim10_witness :
    (split_sale_item (initState ⟨"1234567", 10, none⟩) ⟨7⟩).2
      = .ok { sale_item_id := "89101112", quantity := 7, status := none } :=
  claim10_child_id_amended (initState ⟨"1234567", 10, none⟩)
    (initEntity ⟨"1234567", 10, none⟩) 7 rfl (by decide)
